import Mathlib

/-! Verification of the signing and monitoring core of the OneBalance examples
repository against its natural-language specification. The TypeScript sources
src/helpers/signing.ts, src/helpers/monitoring.ts and src/helpers/types.ts are
shallowly embedded: interfaces become structures, JavaScript numeric strings
stay strings with the BigInt conversion made explicit, thrown errors become
Except values, and the external cryptographic primitives (the viem and solana
web3 libraries, which the specification lists as consumed collaborators)
are modeled as injective stand-in functions of exactly the inputs the real
primitive reads. -/

namespace OneBalance

/-- Hex strings (the TypeScript template type 0x-string) are modeled as plain
strings. -/
abbrev Hex := String

/-- DelegationSignatureType from src/helpers/types.ts. -/
inductive DelegationSignatureType
  | Signed
  | Unsigned
deriving DecidableEq, Repr

/-- ContractAccountType from src/helpers/types.ts. -/
inductive ContractAccountType
  | RoleBased
  | KernelV31
  | KernelV33
  | Solana
deriving DecidableEq, Repr

/-- DelegationSignature from src/helpers/types.ts. -/
structure DelegationSignature where
  chainId : Nat
  contractAddress : Hex
  nonce : Nat
  r : Hex
  s : Hex
  v : Hex
  yParity : Nat
  type : DelegationSignatureType
deriving DecidableEq, Repr

/-- Delegation from src/helpers/types.ts. -/
structure Delegation where
  contractAddress : Hex
  nonce : Nat
  signature : Option DelegationSignature := none
deriving DecidableEq, Repr

/-- SerializedUserOperation from src/helpers/types.ts: the wire format, with
all numeric values as decimal strings. -/
structure SerializedUserOperation where
  sender : Hex
  nonce : String
  factory : Option Hex := none
  factoryData : Option Hex := none
  callData : Hex
  callGasLimit : String
  verificationGasLimit : String
  preVerificationGas : String
  maxFeePerGas : String
  maxPriorityFeePerGas : String
  paymaster : Option Hex := none
  paymasterVerificationGasLimit : Option String := none
  paymasterPostOpGasLimit : Option String := none
  paymasterData : Option Hex := none
  signature : Hex
  initCode : Option Hex := none
  paymasterAndData : Option Hex := none
deriving DecidableEq, Repr

/-- The domain part of the viem HashTypedDataParameters attached to a chain
operation. Only chainId is inspected by the signing code; the remaining
domain fields are opaque to it and collapsed into one string. -/
structure TypedDataDomain where
  chainId : Option Nat := none
  rest : String := ""
deriving DecidableEq, Repr

/-- The typedDataToSign field of a ChainOperation (viem
HashTypedDataParameters). The signing code reads domain.chainId and otherwise
passes the whole value to the typed-data signing primitive, so types,
primaryType and message are collapsed into one opaque string. -/
structure TypedDataToSign where
  domain : Option TypedDataDomain := none
  typesAndMessage : String := ""
deriving DecidableEq, Repr

/-- ChainOperation (the EVM variant) from src/helpers/types.ts. -/
structure ChainOperation where
  userOp : SerializedUserOperation
  typedDataToSign : TypedDataToSign
  assetType : String
  amount : String
  delegation : Option Delegation := none
deriving DecidableEq, Repr

/-- One account entry of a Solana instruction, from src/helpers/types.ts. -/
structure SolanaInstructionKey where
  pubkey : String
  isSigner : Bool
  isWritable : Bool
deriving DecidableEq, Repr

/-- One instruction of a SolanaOperation, from src/helpers/types.ts. -/
structure SolanaInstruction where
  keys : List SolanaInstructionKey
  programId : String
  data : String
deriving DecidableEq, Repr

/-- SolanaOperation from src/helpers/types.ts. The type discriminant field
(the string literal solana) is represented by membership in the solana arm of
OriginOperation below. -/
structure SolanaOperation where
  instructions : List SolanaInstruction
  recentBlockHash : String
  feePayer : String
  signature : Option String := none
  addressLookupTableAddresses : Option (List String) := none
  assetType : String
  amount : String
  dataToSign : Option String := none
deriving DecidableEq, Repr

/-- One element of QuoteResponseV3.originChainsOperations: at runtime the
code discriminates ChainOperation from SolanaOperation by key membership
(a SolanaOperation carries a type field with value solana and no userOp key;
a ChainOperation carries userOp and typedDataToSign keys and no type key). -/
inductive OriginOperation
  | evm (op : ChainOperation)
  | solana (op : SolanaOperation)
deriving DecidableEq, Repr

/-- QuoteResponseV3 from src/helpers/types.ts. Accounts and the token and fee
metadata are never read by the signing code and are kept opaque. -/
structure QuoteResponseV3 where
  id : String
  accounts : List String := []
  originChainsOperations : List OriginOperation
  destinationChainOperation : Option ChainOperation := none
  originToken : Option String := none
  destinationToken : Option String := none
  expirationTimestamp : String := ""
  tamperProofSignature : String := ""
deriving DecidableEq, Repr

/-- EOAKeyPair from src/helpers/types.ts. -/
structure EOAKeyPair where
  privateKey : Hex
  address : Hex
deriving DecidableEq, Repr

/-- The solana web3 Keypair, reduced to the part the code reads
(the secret key bytes fed to the base58 encoder). -/
structure Keypair where
  secretKey : List Nat
deriving DecidableEq, Repr

/-- SolanaAccount from src/helpers/types.ts. -/
structure SolanaAccount where
  accountAddress : String
deriving DecidableEq, Repr

/-- Whitespace trimming on both ends of a character list (the model of
JavaScript string trimming applied before a BigInt conversion). -/
def trimChars (l : List Char) : List Char :=
  ((l.dropWhile Char.isWhitespace).reverse.dropWhile Char.isWhitespace).reverse

/-- Value of a list of decimal digit characters. -/
def decimalValue (l : List Char) : Nat :=
  l.foldl (fun n c => n * 10 + (c.toNat - 48)) 0

/-- JavaScript BigInt applied to a string of the decimal wire format: the
string is trimmed, an empty trimmed string converts to zero, a string of
decimal digits converts to its value, and anything else throws (returns
none here). The hexadecimal, octal and binary prefixed forms of BigInt are
not modeled: the wire format of the quote service is decimal
(spec section 6). -/
def jsBigInt (s : String) : Option Nat :=
  let t := trimChars s.data
  if t = [] then some 0
  else if t.all Char.isDigit then some (decimalValue t)
  else none

/-- The deserialized viem UserOperation for entry point version 0.7, with the
numeric fields as native integers. -/
structure UserOperation where
  sender : Hex
  nonce : Nat
  factory : Option Hex
  factoryData : Option Hex
  callData : Hex
  callGasLimit : Nat
  verificationGasLimit : Nat
  preVerificationGas : Nat
  maxFeePerGas : Nat
  maxPriorityFeePerGas : Nat
  paymaster : Option Hex
  paymasterVerificationGasLimit : Option Nat
  paymasterPostOpGasLimit : Option Nat
  paymasterData : Option Hex
  signature : Hex
deriving DecidableEq, Repr

/-- The conversion applied to the two optional paymaster gas fields in
deserializeUserOp: the TypeScript reads userOp.field ? BigInt(userOp.field) :
undefined, so an absent field or (by JavaScript falsiness) an empty string
yields undefined, and a present malformed string throws. -/
def parseOptionalGas : Option String → Option (Option Nat)
  | none => some none
  | some s => if s = "" then some none else (jsBigInt s).map some

/-- deserializeUserOp from src/helpers/signing.ts lines 21 to 43. The legacy
initCode and paymasterAndData fields of the serialized form are not read by
the source and are dropped. A BigInt conversion error (none) models the
TypeScript exception. -/
def deserializeUserOp (userOp : SerializedUserOperation) : Option UserOperation := do
  let nonce ← jsBigInt userOp.nonce
  let callGasLimit ← jsBigInt userOp.callGasLimit
  let verificationGasLimit ← jsBigInt userOp.verificationGasLimit
  let preVerificationGas ← jsBigInt userOp.preVerificationGas
  let maxFeePerGas ← jsBigInt userOp.maxFeePerGas
  let maxPriorityFeePerGas ← jsBigInt userOp.maxPriorityFeePerGas
  let paymasterVerificationGasLimit ← parseOptionalGas userOp.paymasterVerificationGasLimit
  let paymasterPostOpGasLimit ← parseOptionalGas userOp.paymasterPostOpGasLimit
  pure
    { sender := userOp.sender
      nonce := nonce
      factory := userOp.factory
      factoryData := userOp.factoryData
      callData := userOp.callData
      callGasLimit := callGasLimit
      verificationGasLimit := verificationGasLimit
      preVerificationGas := preVerificationGas
      maxFeePerGas := maxFeePerGas
      maxPriorityFeePerGas := maxPriorityFeePerGas
      paymaster := userOp.paymaster
      paymasterVerificationGasLimit := paymasterVerificationGasLimit
      paymasterPostOpGasLimit := paymasterPostOpGasLimit
      paymasterData := userOp.paymasterData
      signature := userOp.signature }

/-- The entry point 0.7 contract address constant imported from viem. -/
def entryPoint07Address : Hex := "0x0000000071727De22E5E9d8BAf0edAc6f37da032"

/-- Components of the packed initCode of the entry point 0.7 packing: viem
builds concat(factory, factoryData or empty) when factory is present and the
empty byte string otherwise. The factory address is fixed width, so the real
byte concatenation is injective in the pair of components, which are kept
unconcatenated here. -/
def initCodeOf (u : UserOperation) : Option (Hex × Option Hex) :=
  u.factory.map (fun f => (f, u.factoryData))

/-- Components of the packed paymasterAndData of the entry point 0.7 packing:
viem builds concat(paymaster, pad16(paymasterVerificationGasLimit or 0),
pad16(paymasterPostOpGasLimit or 0), paymasterData or empty) when paymaster
is present and the empty byte string otherwise. All leading components are
fixed width, so the real concatenation is injective in the tuple. -/
def paymasterAndDataOf (u : UserOperation) : Option (Hex × Nat × Nat × Option Hex) :=
  u.paymaster.map (fun p =>
    (p, u.paymasterVerificationGasLimit.getD 0, u.paymasterPostOpGasLimit.getD 0,
      u.paymasterData))

/-- The preimage of the viem getUserOperationHash computation for entry point
version 0.7: the packed user operation fields (with the inner keccak hashes
of initCode, callData and paymasterAndData represented by their preimages),
the entry point address and the chain id. keccak256 is modeled as an
injective function, i.e. the hash value is identified with this preimage
record, so hashes are equal exactly when the data the real hash reads is
equal. The signature field is not part of the preimage, exactly as in viem. -/
structure UserOperationHash where
  sender : Hex
  nonce : Nat
  initCode : Option (Hex × Option Hex)
  callData : Hex
  accountGasLimits : Nat × Nat
  preVerificationGas : Nat
  gasFees : Nat × Nat
  paymasterAndData : Option (Hex × Nat × Nat × Option Hex)
  entryPointAddress : Hex
  chainId : Nat
deriving DecidableEq, Repr

/-- The viem getUserOperationHash for entryPointVersion 0.7, at the preimage
level of detail described on UserOperationHash. accountGasLimits packs
(verificationGasLimit, callGasLimit) and gasFees packs
(maxPriorityFeePerGas, maxFeePerGas), as in the entry point 0.7 packing. -/
def getUserOperationHash (u : UserOperation) (entryPointAddress : Hex) (chainId : Nat) :
    UserOperationHash where
  sender := u.sender
  nonce := u.nonce
  initCode := initCodeOf u
  callData := u.callData
  accountGasLimits := (u.verificationGasLimit, u.callGasLimit)
  preVerificationGas := u.preVerificationGas
  gasFees := (u.maxPriorityFeePerGas, u.maxFeePerGas)
  paymasterAndData := paymasterAndDataOf u
  entryPointAddress := entryPointAddress
  chainId := chainId

/-- Plain string rendering of an optional string, used by the stand-in
encoders below. -/
def encodeOptString : Option String → String
  | none => "-"
  | some s => "+" ++ s

/-- Plain string rendering of a UserOperationHash preimage record, used by
the personal-message signing stand-in. -/
def encodeHash (h : UserOperationHash) : String :=
  h.sender ++ "|" ++ toString h.nonce ++ "|" ++
    (match h.initCode with
     | none => "-"
     | some p => "+" ++ p.1 ++ "/" ++ encodeOptString p.2) ++ "|" ++
    h.callData ++ "|" ++ toString h.accountGasLimits.1 ++ ":" ++
    toString h.accountGasLimits.2 ++ "|" ++ toString h.preVerificationGas ++ "|" ++
    toString h.gasFees.1 ++ ":" ++ toString h.gasFees.2 ++ "|" ++
    (match h.paymasterAndData with
     | none => "-"
     | some p => "+" ++ p.1 ++ "/" ++ toString p.2.1 ++ "/" ++ toString p.2.2.1 ++ "/" ++
        encodeOptString p.2.2.2) ++ "|" ++
    h.entryPointAddress ++ "|" ++ toString h.chainId

/-- Plain string rendering of a typed-data descriptor, used by the
typed-data signing stand-in. -/
def encodeTypedData (typedData : TypedDataToSign) : String :=
  (match typedData.domain with
   | none => "-"
   | some d => "+" ++ (match d.chainId with | none => "-" | some c => toString c) ++ ":" ++
      d.rest) ++ "|" ++ typedData.typesAndMessage

/-- External primitive (viem account.signMessage with a raw payload): ECDSA
personal-message signing of the 32 byte user operation hash. Modeled as an
injective stand-in function of the two inputs the real primitive reads, the
signing key and the raw message bytes. -/
def signMessageRaw (key : Hex) (rawHash : UserOperationHash) : Hex :=
  "0xsigmsg(" ++ key ++ "," ++ encodeHash rawHash ++ ")"

/-- External primitive (viem account.signTypedData): EIP-712 typed-data
signing. Modeled as an injective stand-in function of the signing key and the
full typed-data descriptor. Its output range is disjoint from the
personal-message stand-in by construction, as the two real schemes hash with
distinct domain prefixes. -/
def signTypedData (key : Hex) (typedData : TypedDataToSign) : Hex :=
  "0xsigtyped(" ++ key ++ "," ++ encodeTypedData typedData ++ ")"

/-- The result record of the viem account.signAuthorization primitive. -/
structure SignedAuthorization where
  address : Hex
  nonce : Nat
  chainId : Nat
  r : Hex
  s : Hex
  v : Nat
  yParity : Option Nat
deriving DecidableEq, Repr

/-- External primitive (viem account.signAuthorization): EIP-7702
authorization tuple signing. The real primitive echoes the tuple fields back
(address, nonce) and returns r, s, v and a parity bit; it is modeled as an
injective stand-in in the key and the tuple, with the parity bit always
present (the code under test checks for its absence defensively). -/
def signAuthorization (key : Hex) (contractAddress : Hex) (nonce : Nat) (chainId : Nat) :
    SignedAuthorization where
  address := contractAddress
  nonce := nonce
  chainId := chainId
  r := "0xauthr(" ++ key ++ "," ++ contractAddress ++ "," ++ toString nonce ++ ","
    ++ toString chainId ++ ")"
  s := "0xauths(" ++ key ++ ")"
  v := 27
  yParity := some 0

/-- External primitive chain of src/helpers/signing.ts lines 62 to 78:
base64 decode of dataToSign, MessageV0.deserialize, VersionedTransaction
construction, ed25519 signing with the given account address and base58
secret key, extraction of the last signature and base58 encoding of it.
Modeled as one injective stand-in function of the three inputs read. -/
def solanaTransactionSignature (accountAddress privateKey dataToSign : String) : String :=
  "solsig(" ++ accountAddress ++ "," ++ privateKey ++ "," ++ dataToSign ++ ")"

/-- External primitive (bs58.encode): base58 encoding of the secret key
bytes, an injective stand-in. -/
def bs58encode (bytes : List Nat) : String :=
  "base58(" ++ toString bytes ++ ")"

/-- The read of operation.typedDataToSign domain chainId performed by the
Kernel guard in src/helpers/signing.ts line 101, with JavaScript truthiness:
a missing domain, a missing chainId, or a chainId of zero (falsy) all fail
the guard. -/
def chainIdOfTypedData (typedData : TypedDataToSign) : Option Nat :=
  match typedData.domain with
  | none => none
  | some d =>
    match d.chainId with
    | none => none
    | some c => if c = 0 then none else some c

/-- String padStart(2, zero) of the TypeScript at src/helpers/signing.ts
line 126. -/
def padStart2 (s : String) : String :=
  if s.length < 2 then "".pushn '0' (2 - s.length) ++ s else s

/-- The v field construction of the delegation signature: a hex string of
Number(v) padded to two digits (src/helpers/signing.ts line 126). -/
def vHex (v : Nat) : Hex :=
  "0x" ++ padStart2 (String.mk (Nat.toDigits 16 v))

/-- The DelegationSignature value written by the delegation branch of
signOperation (src/helpers/signing.ts lines 120 to 129), given the parity
bit returned by the authorization primitive. -/
def delegationSignedTuple (key : Hex) (d : Delegation) (chainId : Nat) (yParity : Nat) :
    DelegationSignature :=
  let signedTuple := signAuthorization key d.contractAddress d.nonce chainId
  { chainId := chainId
    contractAddress := signedTuple.address
    nonce := signedTuple.nonce
    r := signedTuple.r
    s := signedTuple.s
    v := vHex signedTuple.v
    yParity := yParity
    type := DelegationSignatureType.Signed }

/-- signOperation from src/helpers/signing.ts lines 90 to 162, with the
mutation semantics made explicit: the TypeScript writes
operation.delegation.signature into the caller input object in place and
returns a fresh spread copy carrying the new userOp signature, so this
embedding returns the pair (input object after the call, returned object) on
success. The source checks !operation.userOp before the chain id; userOp is
a required field of the ChainOperation interface so that disjunct is
statically false and only the chain id part of the guard is effective here.
The deserializeUserOp call sits after the delegation block in the source, so
a BigInt conversion throw (modeled as the error branch) happens after the
in-place delegation write; the error branch of Except does not record that
partial mutation. See signOperationM below; this definition is the tail of
its Kernel branch (source lines 132 to 147): the deserialization, hashing
and raw-message signing performed after the delegation block, applied to the
state of the operation object at that point. -/
def kernelHashSign (mutated : ChainOperation) (key : Hex) (chainId : Nat) :
    Except String (ChainOperation × ChainOperation) :=
  match deserializeUserOp mutated.userOp with
  | none => .error "Cannot convert string to a BigInt"
  | some deserializedUserOp =>
    .ok (mutated, { mutated with
      userOp := { mutated.userOp with
        signature := signMessageRaw key
          (getUserOperationHash deserializedUserOp entryPoint07Address chainId) } })

/-- signOperation from src/helpers/signing.ts lines 90 to 162 (see the
comment on kernelHashSign for the mutation semantics and the split of the
Kernel branch tail). -/
def signOperationM (operation : ChainOperation) (key : Hex)
    (accountType : ContractAccountType) : Except String (ChainOperation × ChainOperation) :=
  if accountType = ContractAccountType.KernelV31 ∨
      accountType = ContractAccountType.KernelV33 then
    match chainIdOfTypedData operation.typedDataToSign with
    | none => .error "UserOperation and Chain ID are required for Kernel signing."
    | some chainId =>
      match operation.delegation with
      | none => kernelHashSign operation key chainId
      | some d =>
        match (signAuthorization key d.contractAddress d.nonce chainId).yParity with
        | none => .error "Y parity is required"
        | some yParity =>
          kernelHashSign
            { operation with
              delegation := some { d with
                signature := some (delegationSignedTuple key d chainId yParity) } }
            key chainId
  else
    .ok (operation, { operation with
      userOp := { operation.userOp with
        signature := signTypedData key operation.typedDataToSign } })

/-- signOperation as seen by its callers: the returned (promise) value of the
TypeScript function. The default of the accountType parameter in the source
is RoleBased. -/
def signOperation (operation : ChainOperation) (key : Hex)
    (accountType : ContractAccountType) : Except String ChainOperation :=
  (signOperationM operation key accountType).map Prod.snd

/-- signSolanaOperation from src/helpers/signing.ts lines 53 to 83. The guard
is the JavaScript truthiness test !chainOp.dataToSign, so both an absent and
an empty dataToSign throw; on success the original operation is returned by
spread with only the signature field set. -/
def signSolanaOperation (accountAddress : String) (privateKey : String)
    (chainOp : SolanaOperation) : Except String SolanaOperation :=
  match chainOp.dataToSign with
  | none => .error "dataToSign is required for Solana operation signing"
  | some dataToSign =>
    if dataToSign = "" then
      .error "dataToSign is required for Solana operation signing"
    else
      .ok { chainOp with
        signature := some (solanaTransactionSignature accountAddress privateKey dataToSign) }

/-- The loop body of signAllOperations (src/helpers/signing.ts lines 181 to
201) for one array element: a solana discriminated operation with both the
keypair and the account present goes to the Solana signer; a solana operation
without them fails the first condition and, lacking a userOp key, also the
second, and is left unchanged; an EVM operation (which carries both the
userOp and the typedDataToSign keys) is signed through signOperation with the
account type fixed to KernelV31 by the source. -/
def signOneOperation (signerKey : EOAKeyPair) (solanaKeypair : Option Keypair)
    (solanaAccount : Option SolanaAccount) (operation : OriginOperation) :
    Except String OriginOperation :=
  match operation, solanaKeypair, solanaAccount with
  | .solana sop, some keypair, some account =>
    (signSolanaOperation account.accountAddress (bs58encode keypair.secretKey) sop).map
      OriginOperation.solana
  | .solana sop, _, _ => .ok (.solana sop)
  | .evm eop, _, _ =>
    (signOperation eop signerKey.privateKey ContractAccountType.KernelV31).map
      OriginOperation.evm

/-- The iteration of signAllOperations over the operations array, in order,
aborting on the first signing error (a thrown error inside the loop rejects
the whole promise). -/
def signOps (signerKey : EOAKeyPair) (solanaKeypair : Option Keypair)
    (solanaAccount : Option SolanaAccount) :
    List OriginOperation → Except String (List OriginOperation)
  | [] => .ok []
  | operation :: rest =>
    match signOneOperation signerKey solanaKeypair solanaAccount operation with
    | .error e => .error e
    | .ok signedOperation =>
      match signOps signerKey solanaKeypair solanaAccount rest with
      | .error e => .error e
      | .ok rest => .ok (signedOperation :: rest)

/-- signAllOperations from src/helpers/signing.ts lines 173 to 206: every
origin chain operation is replaced in place by its signed counterpart and
the same quote is returned. -/
def signAllOperations (quote : QuoteResponseV3) (signerKey : EOAKeyPair)
    (solanaKeypair : Option Keypair) (solanaAccount : Option SolanaAccount) :
    Except String QuoteResponseV3 :=
  (signOps signerKey solanaKeypair solanaAccount quote.originChainsOperations).map
    (fun ops => { quote with originChainsOperations := ops })

/-- OperationStatus from src/helpers/types.ts. -/
inductive OperationStatus
  | PENDING
  | IN_PROGRESS
  | EXECUTED
  | COMPLETED
  | REFUNDED
  | FAILED
deriving DecidableEq, Repr

/-- One result of the awaited fetchExecutionStatus call inside the monitoring
loop: either a status response or a thrown fetch error (network or transient
failure). -/
inductive FetchResult
  | ok (status : OperationStatus)
  | fetchError
deriving DecidableEq, Repr

/-- Whether a fetch result is non-terminal for the monitor: PENDING,
IN_PROGRESS, EXECUTED and a fetch error keep polling; COMPLETED, FAILED and
REFUNDED are the terminal statuses. -/
def FetchResult.isNonTerminal : FetchResult → Bool
  | .ok .COMPLETED => false
  | .ok .FAILED => false
  | .ok .REFUNDED => false
  | _ => true

/-- The outcome of monitorTransactionCompletion. The terminalError arm
stands for a rejection carrying the error text Transaction failed or
Transaction refunded thrown at src/helpers/monitoring.ts line 38; the
timeoutError arm stands for the rejection carrying the monitoring timeout
text thrown at line 52; diverge marks fuel exhaustion of this embedding,
reachable only with a poll interval below one. -/
inductive MonitorOutcome
  | success
  | terminalError (status : OperationStatus)
  | timeoutError
  | diverge
deriving DecidableEq, Repr

/-- The polling loop of monitorTransactionCompletion (src/helpers/
monitoring.ts lines 27 to 48). Time is modeled by the elapsed counter, which
starts at zero and advances by pollInterval at each sleep (the fetch itself
is treated as instantaneous); queries counts the fetchExecutionStatus calls
made so far and also indexes the status source. The loop condition is
elapsed < timeout. Inside the loop one status is fetched inside a try block:
COMPLETED sets completed and breaks (resolving with success); FAILED and
REFUNDED throw an Error which is immediately caught by the surrounding catch
(line 40), intended for transient fetch errors, and only logged, so these
fall through to the sleep exactly like PENDING, IN_PROGRESS, EXECUTED and a
fetch error, and the loop keeps polling; consequently the terminalError
outcome is never produced. After the loop, a run that never completed
rejects with the timeout error (lines 50 to 53). Fuel bounds the number of
iterations of this embedding and is chosen large enough to be unreachable
whenever pollInterval is at least one. -/
def monitorAux (source : Nat → FetchResult) (timeout pollInterval : Int) :
    Nat → Int → Nat → MonitorOutcome × Nat
  | fuel, elapsed, queries =>
    if elapsed < timeout then
      match fuel with
      | 0 => (.diverge, queries)
      | fuel + 1 =>
        match source queries with
        | .ok .COMPLETED => (.success, queries + 1)
        | .ok .FAILED =>
          monitorAux source timeout pollInterval fuel (elapsed + pollInterval) (queries + 1)
        | .ok .REFUNDED =>
          monitorAux source timeout pollInterval fuel (elapsed + pollInterval) (queries + 1)
        | .ok _ =>
          monitorAux source timeout pollInterval fuel (elapsed + pollInterval) (queries + 1)
        | .fetchError =>
          monitorAux source timeout pollInterval fuel (elapsed + pollInterval) (queries + 1)
    else
      (.timeoutError, queries)

/-- monitorTransactionCompletion from src/helpers/monitoring.ts lines 16 to
54. The status source stands for fetchExecutionStatus applied to the quote
id, indexed by the number of the poll; the defaults of the source are a
timeout of 60000 and a poll interval of 2000 milliseconds. The result pairs
the outcome with the total number of status queries performed. -/
def monitorTransactionCompletion (source : Nat → FetchResult)
    (timeout pollInterval : Int) : MonitorOutcome × Nat :=
  monitorAux source timeout pollInterval (timeout.toNat + 1) 0 0

/-- Helper for the timeout claims: whenever the status source never reports
COMPLETED, FAILED-and-REFUNDED included or not, the loop can only leave
through the timeout branch, as every branch except COMPLETED recurses; the
fuel bound keeps the run away from the diverge marker as long as the poll
interval is at least one. -/
theorem monitorAux_no_completed (source : Nat → FetchResult) (timeout pollInterval : Int)
    (hp : 1 ≤ pollInterval) (hs : ∀ n, source n ≠ .ok .COMPLETED) :
    ∀ (fuel : Nat) (elapsed : Int) (queries : Nat), timeout - elapsed ≤ fuel →
      (monitorAux source timeout pollInterval fuel elapsed queries).1 =
        MonitorOutcome.timeoutError := by
  intro fuel
  induction fuel with
  | zero =>
    intro elapsed queries hle
    rw [monitorAux]
    rw [if_neg (by omega)]
  | succ fuel ih =>
    intro elapsed queries hle
    rw [monitorAux]
    by_cases h : elapsed < timeout
    · rw [if_pos h]
      have hnext : timeout - (elapsed + pollInterval) ≤ fuel := by omega
      rcases hsq : source queries with st | _
      · cases st with
        | COMPLETED => exact absurd (hsq ▸ rfl) (hs queries)
        | PENDING => exact ih (elapsed + pollInterval) (queries + 1) hnext
        | IN_PROGRESS => exact ih (elapsed + pollInterval) (queries + 1) hnext
        | EXECUTED => exact ih (elapsed + pollInterval) (queries + 1) hnext
        | REFUNDED => exact ih (elapsed + pollInterval) (queries + 1) hnext
        | FAILED => exact ih (elapsed + pollInterval) (queries + 1) hnext
      · exact ih (elapsed + pollInterval) (queries + 1) hnext
    · rw [if_neg h]

/-- C1. The claim states that on any poll tick where the status source
returns FAILED or REFUNDED the monitor reaches the terminal Failed outcome
immediately, raising a typed error naming the reported terminal status with
no further status queries after that tick. The code does not do this: the
throw at src/helpers/monitoring.ts line 38 is inside the try block whose
catch (line 40, intended for transient fetch errors) swallows and merely
logs it. This theorem evaluates the embedding at the failing input of a
status source constantly reporting FAILED with timeout 4 and poll interval 2:
the run performs two status queries (a second query after the first FAILED
tick) and rejects with the generic monitoring timeout error, not with the
terminal failure error; with the source defaults of 60000 and 2000 the same
run makes thirty queries. This contradicts the claim, the specification and
the doc comment of the function itself, which promises rejection on
failure. -/
theorem c1_reported_failure_is_swallowed :
    monitorTransactionCompletion (fun _ => FetchResult.ok OperationStatus.FAILED) 4 2 =
      (MonitorOutcome.timeoutError, 2) ∧
    (monitorTransactionCompletion (fun _ => FetchResult.ok OperationStatus.FAILED) 4 2).1 ≠
      MonitorOutcome.terminalError OperationStatus.FAILED := by
  constructor
  · rfl
  · decide

/-- C6. For every status source that never reports a terminal status
(COMPLETED, FAILED or REFUNDED), and any timeout with a positive poll
interval, the monitor rejects with the monitoring timeout error and in
particular not with the terminal execution failure error, so a caller can
distinguish an unknown outcome from a reported failure. -/
theorem c6_timeout_not_terminal (source : Nat → FetchResult) (timeout pollInterval : Int)
    (hp : 1 ≤ pollInterval) (hs : ∀ n, (source n).isNonTerminal = true) :
    (monitorTransactionCompletion source timeout pollInterval).1 =
      MonitorOutcome.timeoutError ∧
    ∀ st, (monitorTransactionCompletion source timeout pollInterval).1 ≠
      MonitorOutcome.terminalError st := by
  have hns : ∀ n, source n ≠ .ok .COMPLETED := by
    intro n h
    have := hs n
    rw [h] at this
    simp [FetchResult.isNonTerminal] at this
  have hmain :
      (monitorTransactionCompletion source timeout pollInterval).1 =
        MonitorOutcome.timeoutError := by
    unfold monitorTransactionCompletion
    refine monitorAux_no_completed source timeout pollInterval hp hns _ 0 0 ?_
    have := Int.self_le_toNat timeout
    omega
  refine ⟨hmain, ?_⟩
  intro st h
  rw [hmain] at h
  exact MonitorOutcome.noConfusion h

/-- Witness for C6 at a concrete input: a status source constantly reporting
PENDING with timeout 4 and poll interval 2 times out. -/
theorem c6_timeout_not_terminal_witness :
    (monitorTransactionCompletion (fun _ => FetchResult.ok OperationStatus.PENDING) 4 2).1 =
      MonitorOutcome.timeoutError :=
  (c6_timeout_not_terminal (fun _ => FetchResult.ok OperationStatus.PENDING) 4 2
    (by decide) (fun _ => rfl)).1

/-- C10. When monitorTransactionCompletion is called with a timeout of zero
or below, the loop condition elapsed < timeout is false on entry, so the
polling loop body never executes: zero status queries are performed and the
call rejects immediately with the monitoring timeout error. -/
theorem c10_nonpositive_timeout (source : Nat → FetchResult) (timeout pollInterval : Int)
    (ht : timeout ≤ 0) :
    monitorTransactionCompletion source timeout pollInterval =
      (MonitorOutcome.timeoutError, 0) := by
  unfold monitorTransactionCompletion
  rw [monitorAux]
  rw [if_neg (by omega)]

/-- Witness for C10 at a concrete input: timeout minus three, poll interval
two, a status source that would report COMPLETED if it were ever queried. -/
theorem c10_nonpositive_timeout_witness :
    monitorTransactionCompletion (fun _ => FetchResult.ok OperationStatus.COMPLETED) (-3) 2 =
      (MonitorOutcome.timeoutError, 0) :=
  c10_nonpositive_timeout (fun _ => FetchResult.ok OperationStatus.COMPLETED) (-3) 2
    (by decide)

/-- C7. For every Solana operation whose dataToSign is present (non-empty:
the JavaScript truthiness guard of the source treats an empty payload as
absent, and an empty base64 message could not deserialize in the real
library anyway), signSolanaOperation returns exactly the input operation
with only the signature field set: the record update form of the right hand
side states that instructions, recentBlockHash, feePayer, the lookup table
addresses, assetType, amount and the dataToSign payload itself are the
untouched input values, so the message payload is neither re-serialized nor
mutated. -/
theorem c7_solana_frame (accountAddress privateKey : String) (op : SolanaOperation)
    (d : String) (hd : op.dataToSign = some d) (hne : d ≠ "") :
    signSolanaOperation accountAddress privateKey op =
      .ok { op with
        signature := some (solanaTransactionSignature accountAddress privateKey d) } := by
  simp [signSolanaOperation, hd, hne]

/-- Witness for C7 at a concrete operation. -/
theorem c7_solana_frame_witness :
    signSolanaOperation "solAddr" "solKey"
      { instructions := [], recentBlockHash := "bh", feePayer := "fp",
        assetType := "sol", amount := "5", dataToSign := some "AQID" } =
      .ok { instructions := [], recentBlockHash := "bh", feePayer := "fp",
            signature := some (solanaTransactionSignature "solAddr" "solKey" "AQID"),
            assetType := "sol", amount := "5", dataToSign := some "AQID" } :=
  c7_solana_frame "solAddr" "solKey"
    { instructions := [], recentBlockHash := "bh", feePayer := "fp",
      assetType := "sol", amount := "5", dataToSign := some "AQID" }
    "AQID" rfl (by decide)

/-- Helper for C8: with the Solana keypair or the Solana account missing, a
solana discriminated operation fails the first branch condition of the
orchestrator loop and, carrying no userOp key, also the second, and is
passed through unchanged without an error. -/
theorem signOneOperation_solana_missing_key (signerKey : EOAKeyPair)
    (solanaKeypair : Option Keypair) (solanaAccount : Option SolanaAccount)
    (h : solanaKeypair = none ∨ solanaAccount = none) (sop : SolanaOperation) :
    signOneOperation signerKey solanaKeypair solanaAccount (.solana sop) =
      .ok (.solana sop) := by
  rcases h with h | h
  · subst h; cases solanaAccount <;> rfl
  · subst h; cases solanaKeypair <;> rfl

/-- Helper for C8: a list consisting only of solana discriminated operations
is returned unchanged by the orchestrator iteration when the keypair or the
account is missing. -/
theorem signOps_all_solana (signerKey : EOAKeyPair) (solanaKeypair : Option Keypair)
    (solanaAccount : Option SolanaAccount)
    (h : solanaKeypair = none ∨ solanaAccount = none) :
    ∀ l : List OriginOperation,
      (∀ op ∈ l, ∃ sop, op = OriginOperation.solana sop) →
      signOps signerKey solanaKeypair solanaAccount l = .ok l := by
  intro l
  induction l with
  | nil => intro _; rfl
  | cons op rest ih =>
    intro hall
    obtain ⟨sop, hsop⟩ := hall op (List.mem_cons_self op rest)
    subst hsop
    rw [signOps]
    rw [signOneOperation_solana_missing_key signerKey solanaKeypair solanaAccount h sop]
    rw [ih (fun o ho => hall o (List.mem_cons_of_mem _ ho))]

/-- C8. When the Solana keypair argument (or the Solana account argument) is
null, a solana discriminated operation is left unchanged by the orchestrator
and no error is raised: the first conjunct states the defensive pass-through
of the loop body for such an operation, and the second states that a quote
all of whose origin operations are solana discriminated is returned whole
and unchanged (no error) by signAllOperations. -/
theorem c8_defensive_passthrough (signerKey : EOAKeyPair)
    (solanaKeypair : Option Keypair) (solanaAccount : Option SolanaAccount)
    (h : solanaKeypair = none ∨ solanaAccount = none) :
    (∀ sop : SolanaOperation,
      signOneOperation signerKey solanaKeypair solanaAccount (.solana sop) =
        .ok (.solana sop)) ∧
    (∀ quote : QuoteResponseV3,
      (∀ op ∈ quote.originChainsOperations, ∃ sop, op = OriginOperation.solana sop) →
      signAllOperations quote signerKey solanaKeypair solanaAccount = .ok quote) := by
  constructor
  · exact signOneOperation_solana_missing_key signerKey solanaKeypair solanaAccount h
  · intro quote hall
    unfold signAllOperations
    rw [signOps_all_solana signerKey solanaKeypair solanaAccount h
      quote.originChainsOperations hall]
    rfl

/-- Witness for C8 at a concrete input: a quote holding one unsigned solana
operation, an EVM key, no Solana keypair and a present Solana account. -/
theorem c8_defensive_passthrough_witness :
    signAllOperations
      { id := "q8",
        originChainsOperations := [OriginOperation.solana
          { instructions := [], recentBlockHash := "bh8", feePayer := "fp8",
            assetType := "sol", amount := "1", dataToSign := some "AQID" }] }
      { privateKey := "0xk8", address := "0xa8" }
      none (some { accountAddress := "solAcct8" }) =
      .ok { id := "q8",
            originChainsOperations := [OriginOperation.solana
              { instructions := [], recentBlockHash := "bh8", feePayer := "fp8",
                assetType := "sol", amount := "1", dataToSign := some "AQID" }] } :=
  (c8_defensive_passthrough { privateKey := "0xk8", address := "0xa8" }
      none (some { accountAddress := "solAcct8" }) (Or.inl rfl)).2
    { id := "q8",
      originChainsOperations := [OriginOperation.solana
        { instructions := [], recentBlockHash := "bh8", feePayer := "fp8",
          assetType := "sol", amount := "1", dataToSign := some "AQID" }] }
    (by intro op ho
        simp only [List.mem_singleton] at ho
        exact ⟨_, ho⟩)

/-- Concrete serialized user operation for the C2 counterexample. -/
def userOp2 : SerializedUserOperation :=
  { sender := "0xsender2", nonce := "1", callData := "0xdead",
    callGasLimit := "100", verificationGasLimit := "200", preVerificationGas := "300",
    maxFeePerGas := "400", maxPriorityFeePerGas := "500", signature := "0x" }

/-- Concrete EVM chain operation for the C2 counterexample, with a typed
data descriptor carrying chain id one. -/
def evmOp2 : ChainOperation :=
  { userOp := userOp2,
    typedDataToSign := { domain := some { chainId := some 1 }, typesAndMessage := "td2" },
    assetType := "eip155:1/erc20:0xt", amount := "1" }

/-- Concrete quote for the C2 counterexample: one EVM operation. -/
def quote2 : QuoteResponseV3 :=
  { id := "q2", originChainsOperations := [.evm evmOp2] }

/-- The userOp signature produced on the single operation of quote2 by
signAllOperations. -/
def quote2sig : String :=
  match signAllOperations quote2 { privateKey := "0xk2", address := "0xa2" } none none with
  | .ok q =>
    match q.originChainsOperations with
    | [OriginOperation.evm e] => e.userOp.signature
    | _ => ""
  | .error _ => ""

/-- The userOp signature signOperation produces on evmOp2 in UserOperation
hash (KernelV31) mode. -/
def kernelSig2 : String :=
  match signOperation evmOp2 "0xk2" ContractAccountType.KernelV31 with
  | .ok e => e.userOp.signature
  | .error _ => ""

/-- The userOp signature signOperation produces on evmOp2 in RoleBased
(typed data) mode. -/
def roleSig2 : String :=
  match signOperation evmOp2 "0xk2" ContractAccountType.RoleBased with
  | .ok e => e.userOp.signature
  | .error _ => ""

/-- C2 counterexample. The claim says signAllOperations signs each EVM
operation via the dispatcher with a supplied accountType, RoleBased giving
typed-data signatures. signAllOperations takes no account type argument at
all: src/helpers/signing.ts line 198 hard-codes ContractAccountType.KernelV31
at the call site. At the concrete quote2 the orchestrator output carries the
KernelV31 UserOperation-hash-mode signature, which differs from the signature
the RoleBased typed-data mode would produce on the same operation with the
same key, refuting the claim at this input. -/
theorem c2_counterexample : quote2sig = kernelSig2 ∧ quote2sig ≠ roleSig2 := by
  constructor
  · rfl
  · decide

/-- C2 amended. signAllOperations signs every EVM discriminated operation
through signOperation with the account type fixed to KernelV31, i.e. always
in UserOperation-hash mode (first conjunct, stated on the loop body for all
inputs); signOperation itself, when invoked with RoleBased, signs the typed
data descriptor directly and computes no UserOperation hash: the second
conjunct gives its output as an equation in which the signature is the
typed-data primitive applied to the descriptor, for every operation,
including operations whose serialized user operation fields would not even
deserialize, so no hash computation takes place in that mode. -/
theorem c2_amended_kernel_fixed :
    (∀ (signerKey : EOAKeyPair) (solanaKeypair : Option Keypair)
      (solanaAccount : Option SolanaAccount) (eop : ChainOperation),
      signOneOperation signerKey solanaKeypair solanaAccount (.evm eop) =
        (signOperation eop signerKey.privateKey ContractAccountType.KernelV31).map
          OriginOperation.evm) ∧
    (∀ (eop : ChainOperation) (key : Hex),
      signOperation eop key ContractAccountType.RoleBased =
        .ok { eop with
          userOp := { eop.userOp with
            signature := signTypedData key eop.typedDataToSign } }) := by
  constructor
  · intro signerKey solanaKeypair solanaAccount eop
    cases solanaKeypair <;> cases solanaAccount <;> rfl
  · intro eop key
    rfl

/-- Concrete delegation signature for the C3 counterexample: the delegation
arrives already signed (type Signed, old r and s values). -/
def oldSig3 : DelegationSignature :=
  { chainId := 1, contractAddress := "0xc3", nonce := 9, r := "0xoldr", s := "0xolds",
    v := "0x1b", yParity := 1, type := DelegationSignatureType.Signed }

/-- Concrete delegation for the C3 counterexample, already carrying a
signature. -/
def deleg3 : Delegation :=
  { contractAddress := "0xc3", nonce := 9, signature := some oldSig3 }

/-- Concrete EVM operation for the C3 counterexample: a valid Kernel signing
context with an already signed delegation attached. -/
def evmOp3 : ChainOperation :=
  { userOp := { sender := "0xsender3", nonce := "2", callData := "0xbeef",
                callGasLimit := "10", verificationGasLimit := "20",
                preVerificationGas := "30", maxFeePerGas := "40",
                maxPriorityFeePerGas := "50", signature := "0x" },
    typedDataToSign := { domain := some { chainId := some 1 }, typesAndMessage := "td3" },
    assetType := "eip155:1/erc20:0xt", amount := "2",
    delegation := some deleg3 }

/-- The delegation signature slot of the caller input object after running
signOperation on evmOp3 in Kernel mode (some some when the run succeeded and
left a signature there, some none when it cleared it, none when the run
failed). -/
def deleg3after : Option (Option DelegationSignature) :=
  match signOperationM evmOp3 "0xk3" ContractAccountType.KernelV31 with
  | .ok (after, _) =>
    match after.delegation with
    | some d => some d.signature
    | none => none
  | .error _ => none

/-- C3 counterexample. The claim says delegation signing only occurs when
operation.delegation is present AND unsigned. The guard at
src/helpers/signing.ts line 108 checks presence only, so at the concrete
operation evmOp3, whose delegation already carries a signature, the code
still performs delegation signing and overwrites delegation.signature with a
freshly produced tuple different from the one that was there. -/
theorem c3_counterexample :
    evmOp3.delegation.map Delegation.signature = some (some oldSig3) ∧
    deleg3after = some (some (delegationSignedTuple "0xk3" deleg3 1 0)) ∧
    delegationSignedTuple "0xk3" deleg3 1 0 ≠ oldSig3 := by
  refine ⟨rfl, rfl, ?_⟩
  decide

/-- C3 amended. In UserOperation-hash (Kernel) mode, delegation signing
occurs exactly when operation.delegation is present, regardless of whether
it is already signed (an existing signature is overwritten); when delegation
is absent from the input, the returned operation has no delegation field
added. Stated for every operation with a valid Kernel signing context (a
truthy chain id in the typed-data domain and deserializable user operation
fields). -/
theorem c3_amended_delegation_presence (op : ChainOperation) (key : Hex) (c : Nat)
    (u : UserOperation) (hc : chainIdOfTypedData op.typedDataToSign = some c)
    (hu : deserializeUserOp op.userOp = some u) :
    (op.delegation = none →
      signOperation op key ContractAccountType.KernelV31 =
        .ok { op with
          userOp := { op.userOp with
            signature := signMessageRaw key
              (getUserOperationHash u entryPoint07Address c) } }) ∧
    (∀ d, op.delegation = some d →
      signOperation op key ContractAccountType.KernelV31 =
        .ok { op with
          delegation := some { d with
            signature := some (delegationSignedTuple key d c 0) },
          userOp := { op.userOp with
            signature := signMessageRaw key
              (getUserOperationHash u entryPoint07Address c) } }) := by
  constructor
  · intro hn
    simp [signOperation, signOperationM, kernelHashSign, Except.map, hc, hn, hu]
  · intro d hd
    simp [signOperation, signOperationM, kernelHashSign, signAuthorization, Except.map,
      hc, hd, hu]

/-- Witness for C3 amended at a concrete operation carrying a delegation. -/
theorem c3_amended_delegation_presence_witness :
    signOperation evmOp3 "0xk3" ContractAccountType.KernelV31 =
      .ok { evmOp3 with
        delegation := some { deleg3 with
          signature := some (delegationSignedTuple "0xk3" deleg3 1 0) },
        userOp := { evmOp3.userOp with
          signature := signMessageRaw "0xk3"
            (getUserOperationHash ((deserializeUserOp evmOp3.userOp).getD
              { sender := "", nonce := 0, factory := none, factoryData := none,
                callData := "", callGasLimit := 0, verificationGasLimit := 0,
                preVerificationGas := 0, maxFeePerGas := 0, maxPriorityFeePerGas := 0,
                paymaster := none, paymasterVerificationGasLimit := none,
                paymasterPostOpGasLimit := none, paymasterData := none, signature := "" })
              entryPoint07Address 1) } } :=
  (c3_amended_delegation_presence evmOp3 "0xk3" 1
      ((deserializeUserOp evmOp3.userOp).getD
        { sender := "", nonce := 0, factory := none, factoryData := none,
          callData := "", callGasLimit := 0, verificationGasLimit := 0,
          preVerificationGas := 0, maxFeePerGas := 0, maxPriorityFeePerGas := 0,
          paymaster := none, paymasterVerificationGasLimit := none,
          paymasterPostOpGasLimit := none, paymasterData := none, signature := "" })
      rfl rfl).2 deleg3 rfl

/-- C9. In UserOperation-hash (Kernel) mode on an operation carrying a
delegation, signOperation writes the delegation signature into the caller
input object itself: in the explicit mutation embedding signOperationM, the
first component of the result (the input object after the call) has its
delegation signature overwritten while its userOp, and in particular its
userOp signature slot, is exactly the input value; the freshly spread copy
that is returned is the only place carrying the new userOp signature, and it
shares the mutated delegation with the input object (second conjunct). -/
theorem c9_delegation_in_place_mutation (op : ChainOperation) (key : Hex)
    (accountType : ContractAccountType) (c : Nat) (d : Delegation) (u : UserOperation)
    (hacc : accountType = ContractAccountType.KernelV31 ∨
      accountType = ContractAccountType.KernelV33)
    (hc : chainIdOfTypedData op.typedDataToSign = some c)
    (hd : op.delegation = some d)
    (hu : deserializeUserOp op.userOp = some u) :
    (signOperationM op key accountType =
      .ok ({ op with
              delegation := some { d with
                signature := some (delegationSignedTuple key d c 0) } },
            { op with
              delegation := some { d with
                signature := some (delegationSignedTuple key d c 0) },
              userOp := { op.userOp with
                signature := signMessageRaw key
                  (getUserOperationHash u entryPoint07Address c) } })) ∧
    (∀ after ret, signOperationM op key accountType = .ok (after, ret) →
      after.userOp = op.userOp ∧ after.userOp.signature = op.userOp.signature ∧
      ret.delegation = after.delegation ∧
      ret.userOp.signature =
        signMessageRaw key (getUserOperationHash u entryPoint07Address c)) := by
  have hif : (accountType = ContractAccountType.KernelV31 ∨
      accountType = ContractAccountType.KernelV33) = True := eq_true hacc
  have hmain : signOperationM op key accountType =
      .ok ({ op with
              delegation := some { d with
                signature := some (delegationSignedTuple key d c 0) } },
            { op with
              delegation := some { d with
                signature := some (delegationSignedTuple key d c 0) },
              userOp := { op.userOp with
                signature := signMessageRaw key
                  (getUserOperationHash u entryPoint07Address c) } }) := by
    simp [signOperationM, kernelHashSign, signAuthorization, hif, hc, hd, hu]
  refine ⟨hmain, ?_⟩
  intro after ret h
  rw [hmain] at h
  obtain ⟨h1, h2⟩ := Prod.mk.injEq .. ▸ (Except.ok.injEq .. ▸ h)
  subst h1
  subst h2
  exact ⟨rfl, rfl, rfl, rfl⟩

/-- Witness for C9 at the concrete operation evmOp3 (which carries a
delegation and a valid Kernel context): the explicit result pair, whose
first component (the caller input object after the call) keeps the original
userOp and carries the overwritten delegation signature, the returned copy
alone carrying the new userOp signature. -/
theorem c9_delegation_in_place_mutation_witness :
    signOperationM evmOp3 "0xk9" ContractAccountType.KernelV31 =
      .ok ({ evmOp3 with
              delegation := some { deleg3 with
                signature := some (delegationSignedTuple "0xk9" deleg3 1 0) } },
            { evmOp3 with
              delegation := some { deleg3 with
                signature := some (delegationSignedTuple "0xk9" deleg3 1 0) },
              userOp := { evmOp3.userOp with
                signature := signMessageRaw "0xk9"
                  (getUserOperationHash ((deserializeUserOp evmOp3.userOp).getD
                    { sender := "", nonce := 0, factory := none, factoryData := none,
                      callData := "", callGasLimit := 0, verificationGasLimit := 0,
                      preVerificationGas := 0, maxFeePerGas := 0,
                      maxPriorityFeePerGas := 0, paymaster := none,
                      paymasterVerificationGasLimit := none,
                      paymasterPostOpGasLimit := none, paymasterData := none,
                      signature := "" })
                    entryPoint07Address 1) } }) :=
  (c9_delegation_in_place_mutation evmOp3 "0xk9" ContractAccountType.KernelV31 1 deleg3
    ((deserializeUserOp evmOp3.userOp).getD
      { sender := "", nonce := 0, factory := none, factoryData := none,
        callData := "", callGasLimit := 0, verificationGasLimit := 0,
        preVerificationGas := 0, maxFeePerGas := 0, maxPriorityFeePerGas := 0,
        paymaster := none, paymasterVerificationGasLimit := none,
        paymasterPostOpGasLimit := none, paymasterData := none, signature := "" })
    (Or.inl rfl) rfl rfl rfl).1

/-- Clearing of the signature slots of an EVM chain operation: the userOp
signature slot and the delegation signature sub-record. Every other field is
kept; two operations agree after clearing exactly when their non-signature
fields are identical. -/
def eraseChainOpSignatures (e : ChainOperation) : ChainOperation :=
  { e with
    userOp := { e.userOp with signature := "" },
    delegation := e.delegation.map (fun d => { d with signature := none }) }

/-- Clearing of the signature slots of an origin operation: the userOp
signature and the delegation signature of an EVM operation, the top level
signature of a solana operation. -/
def eraseSignatures : OriginOperation → OriginOperation
  | .evm e => .evm (eraseChainOpSignatures e)
  | .solana s => .solana { s with signature := none }

/-- Helper for C4: signOperation only writes signature slots; on success the
non-signature fields of the result are identical to the input. Holds for
every account type. -/
theorem signOperation_frame (e e' : ChainOperation) (key : Hex)
    (accountType : ContractAccountType)
    (h : signOperation e key accountType = .ok e') :
    eraseChainOpSignatures e' = eraseChainOpSignatures e := by
  unfold signOperation signOperationM at h
  by_cases hk : accountType = ContractAccountType.KernelV31 ∨
      accountType = ContractAccountType.KernelV33
  · rw [if_pos hk] at h
    cases hc : chainIdOfTypedData e.typedDataToSign with
    | none => rw [hc] at h; simp [Except.map] at h
    | some c =>
      rw [hc] at h
      cases hd : e.delegation with
      | none =>
        rw [hd] at h
        unfold kernelHashSign at h
        cases hu : deserializeUserOp e.userOp with
        | none => rw [hu] at h; simp [Except.map] at h
        | some u =>
          rw [hu] at h
          simp only [Except.map, Except.ok.injEq] at h
          subst h
          simp [eraseChainOpSignatures, hd]
      | some d =>
        rw [hd] at h
        simp only [signAuthorization] at h
        unfold kernelHashSign at h
        cases hu : deserializeUserOp e.userOp with
        | none => rw [hu] at h; simp [Except.map] at h
        | some u =>
          rw [hu] at h
          simp only [Except.map, Except.ok.injEq] at h
          subst h
          simp [eraseChainOpSignatures, hd]
  · rw [if_neg hk] at h
    simp only [Except.map, Except.ok.injEq] at h
    subst h
    simp [eraseChainOpSignatures]

/-- Helper for C4: the loop body only writes signature slots; on success the
non-signature fields of the produced array element are identical to the
input element. -/
theorem signOneOperation_frame (signerKey : EOAKeyPair) (solanaKeypair : Option Keypair)
    (solanaAccount : Option SolanaAccount) (op op' : OriginOperation)
    (h : signOneOperation signerKey solanaKeypair solanaAccount op = .ok op') :
    eraseSignatures op' = eraseSignatures op := by
  cases op with
  | evm e =>
    have h' : (signOperation e signerKey.privateKey ContractAccountType.KernelV31).map
        OriginOperation.evm = .ok op' := by
      rw [← h]
      cases solanaKeypair <;> cases solanaAccount <;> rfl
    cases hs : signOperation e signerKey.privateKey ContractAccountType.KernelV31 with
    | error msg => rw [hs] at h'; simp [Except.map] at h'
    | ok e' =>
      rw [hs] at h'
      simp only [Except.map, Except.ok.injEq] at h'
      subst h'
      simp [eraseSignatures, signOperation_frame e e' signerKey.privateKey
        ContractAccountType.KernelV31 hs]
  | solana s =>
    cases solanaKeypair with
    | none =>
      rw [signOneOperation_solana_missing_key signerKey none solanaAccount
        (Or.inl rfl) s] at h
      cases h
      rfl
    | some keypair =>
      cases solanaAccount with
      | none =>
        rw [signOneOperation_solana_missing_key signerKey (some keypair) none
          (Or.inr rfl) s] at h
        cases h
        rfl
      | some account =>
        simp only [signOneOperation, signSolanaOperation] at h
        cases hd : s.dataToSign with
        | none => rw [hd] at h; simp [Except.map] at h
        | some payload =>
          rw [hd] at h
          by_cases hne : payload = ""
          · simp [Except.map, hne] at h
          · simp only [Except.map, hne, if_false, Except.ok.injEq] at h
            subst h
            rw [← hd]
            rfl

/-- Which populated signature a produced array element must carry, by the
discriminant of the input element: an EVM operation ends up with a
personal-message signature by the EVM key over a user operation hash in its
userOp signature slot; a solana operation, when both the keypair and account
were supplied, ends up with an ed25519 transaction signature by that keypair
in its top level signature slot, and is otherwise the unchanged input. A
change of discriminant never happens. -/
def signatureSlotPopulated (signerKey : EOAKeyPair) (solanaKeypair : Option Keypair)
    (solanaAccount : Option SolanaAccount) (op op' : OriginOperation) : Prop :=
  match op, op' with
  | .evm _, .evm e' =>
    ∃ hashData, e'.userOp.signature = signMessageRaw signerKey.privateKey hashData
  | .solana s, .solana s' =>
    match solanaKeypair, solanaAccount with
    | some keypair, some account =>
      ∃ payload, s'.signature = some (solanaTransactionSignature
          account.accountAddress (bs58encode keypair.secretKey) payload)
    | _, _ => s' = s
  | _, _ => False

/-- Helper for C4: on success the loop body populates the signature slot
selected by the discriminant of the element. -/
theorem signOneOperation_populated (signerKey : EOAKeyPair)
    (solanaKeypair : Option Keypair) (solanaAccount : Option SolanaAccount)
    (op op' : OriginOperation)
    (h : signOneOperation signerKey solanaKeypair solanaAccount op = .ok op') :
    signatureSlotPopulated signerKey solanaKeypair solanaAccount op op' := by
  cases op with
  | evm e =>
    have h' : (signOperation e signerKey.privateKey ContractAccountType.KernelV31).map
        OriginOperation.evm = .ok op' := by
      rw [← h]
      cases solanaKeypair <;> cases solanaAccount <;> rfl
    cases hs : signOperation e signerKey.privateKey ContractAccountType.KernelV31 with
    | error msg => rw [hs] at h'; simp [Except.map] at h'
    | ok e' =>
      rw [hs] at h'
      simp only [Except.map, Except.ok.injEq] at h'
      subst h'
      unfold signOperation signOperationM at hs
      rw [if_pos (Or.inl rfl)] at hs
      cases hc : chainIdOfTypedData e.typedDataToSign with
      | none => rw [hc] at hs; simp [Except.map] at hs
      | some c =>
        rw [hc] at hs
        cases hd : e.delegation with
        | none =>
          rw [hd] at hs
          unfold kernelHashSign at hs
          cases hu : deserializeUserOp e.userOp with
          | none => rw [hu] at hs; simp [Except.map] at hs
          | some u =>
            rw [hu] at hs
            simp only [Except.map, Except.ok.injEq] at hs
            subst hs
            exact ⟨_, rfl⟩
        | some d =>
          rw [hd] at hs
          simp only [signAuthorization] at hs
          unfold kernelHashSign at hs
          cases hu : deserializeUserOp e.userOp with
          | none => rw [hu] at hs; simp [Except.map] at hs
          | some u =>
            rw [hu] at hs
            simp only [Except.map, Except.ok.injEq] at hs
            subst hs
            exact ⟨_, rfl⟩
  | solana s =>
    cases solanaKeypair with
    | none =>
      rw [signOneOperation_solana_missing_key signerKey none solanaAccount
        (Or.inl rfl) s] at h
      cases h
      cases solanaAccount <;> exact rfl
    | some keypair =>
      cases solanaAccount with
      | none =>
        rw [signOneOperation_solana_missing_key signerKey (some keypair) none
          (Or.inr rfl) s] at h
        cases h
        exact rfl
      | some account =>
        simp only [signOneOperation, signSolanaOperation] at h
        cases hd : s.dataToSign with
        | none => rw [hd] at h; simp [Except.map] at h
        | some payload =>
          rw [hd] at h
          by_cases hne : payload = ""
          · simp [Except.map, hne] at h
          · simp only [Except.map, hne, if_false, Except.ok.injEq] at h
            subst h
            exact ⟨payload, rfl⟩

/-- Helper for C4: the orchestrator iteration, on success, yields a list of
the same length whose element at every index is the successful output of the
loop body on the input element at that index. -/
theorem signOps_sound (signerKey : EOAKeyPair) (solanaKeypair : Option Keypair)
    (solanaAccount : Option SolanaAccount) :
    ∀ (l l' : List OriginOperation),
      signOps signerKey solanaKeypair solanaAccount l = .ok l' →
      l'.length = l.length ∧
      ∀ i (hi : i < l.length) (hi' : i < l'.length),
        signOneOperation signerKey solanaKeypair solanaAccount (l.get ⟨i, hi⟩) =
          .ok (l'.get ⟨i, hi'⟩) := by
  intro l
  induction l with
  | nil =>
    intro l' h
    cases h
    exact ⟨rfl, fun i hi _ => absurd hi (Nat.not_lt_zero i)⟩
  | cons op rest ih =>
    intro l' h
    rw [signOps] at h
    cases h1 : signOneOperation signerKey solanaKeypair solanaAccount op with
    | error msg => rw [h1] at h; cases h
    | ok op' =>
      rw [h1] at h
      cases h2 : signOps signerKey solanaKeypair solanaAccount rest with
      | error msg => rw [h2] at h; cases h
      | ok rest' =>
        rw [h2] at h
        cases h
        obtain ⟨hlen, hidx⟩ := ih rest' h2
        refine ⟨by simp [hlen], ?_⟩
        intro i hi hi'
        cases i with
        | zero => exact h1
        | succ j =>
          exact hidx j (Nat.lt_of_succ_lt_succ hi) (Nat.lt_of_succ_lt_succ hi')

/-- C4. On success, signAllOperations returns a quote with the same number
of origin operations in the same order; at every index the output element is
the successful result of the loop body on the input element (populating the
signature slot according to the discriminant, as stated by
signatureSlotPopulated), and its non-signature fields, exposed by clearing
the signature slots, are identical to the input; all remaining quote fields
are unchanged. -/
theorem c4_round_trip (quote q' : QuoteResponseV3) (signerKey : EOAKeyPair)
    (solanaKeypair : Option Keypair) (solanaAccount : Option SolanaAccount)
    (h : signAllOperations quote signerKey solanaKeypair solanaAccount = .ok q') :
    q'.originChainsOperations.length = quote.originChainsOperations.length ∧
    q'.id = quote.id ∧ q'.accounts = quote.accounts ∧
    q'.destinationChainOperation = quote.destinationChainOperation ∧
    q'.originToken = quote.originToken ∧ q'.destinationToken = quote.destinationToken ∧
    q'.expirationTimestamp = quote.expirationTimestamp ∧
    q'.tamperProofSignature = quote.tamperProofSignature ∧
    ∀ i (hi : i < quote.originChainsOperations.length)
      (hi' : i < q'.originChainsOperations.length),
      signOneOperation signerKey solanaKeypair solanaAccount
          (quote.originChainsOperations.get ⟨i, hi⟩) =
        .ok (q'.originChainsOperations.get ⟨i, hi'⟩) ∧
      eraseSignatures (q'.originChainsOperations.get ⟨i, hi'⟩) =
        eraseSignatures (quote.originChainsOperations.get ⟨i, hi⟩) ∧
      signatureSlotPopulated signerKey solanaKeypair solanaAccount
        (quote.originChainsOperations.get ⟨i, hi⟩)
        (q'.originChainsOperations.get ⟨i, hi'⟩) := by
  unfold signAllOperations at h
  cases hops : signOps signerKey solanaKeypair solanaAccount
      quote.originChainsOperations with
  | error msg => rw [hops] at h; simp [Except.map] at h
  | ok ops =>
    rw [hops] at h
    simp only [Except.map, Except.ok.injEq] at h
    subst h
    obtain ⟨hlen, hidx⟩ := signOps_sound signerKey solanaKeypair solanaAccount
      quote.originChainsOperations ops hops
    refine ⟨hlen, rfl, rfl, rfl, rfl, rfl, rfl, rfl, ?_⟩
    intro i hi hi'
    have h1 := hidx i hi hi'
    exact ⟨h1, signOneOperation_frame signerKey solanaKeypair solanaAccount _ _ h1,
      signOneOperation_populated signerKey solanaKeypair solanaAccount _ _ h1⟩

/-- Concrete mixed quote for the C4 witness: one EVM operation and one
solana operation. -/
def quote4 : QuoteResponseV3 :=
  { id := "q4",
    originChainsOperations :=
      [.evm evmOp2,
       .solana { instructions := [], recentBlockHash := "bh4", feePayer := "fp4",
                 assetType := "sol", amount := "3", dataToSign := some "BASE64" }] }

/-- The result quote of signAllOperations on quote4 with an EVM key and a
Solana keypair and account (falling back to quote4 itself on error, which
does not occur here). -/
def quote4signed : QuoteResponseV3 :=
  (signAllOperations quote4 { privateKey := "0xk4", address := "0xa4" }
    (some { secretKey := [1, 2, 3] }) (some { accountAddress := "solAcct4" })).toOption.getD
    quote4

/-- Witness for C4 at the concrete mixed quote. -/
theorem c4_round_trip_witness :
    quote4signed.originChainsOperations.length =
      quote4.originChainsOperations.length :=
  (c4_round_trip quote4 quote4signed { privateKey := "0xk4", address := "0xa4" }
    (some { secretKey := [1, 2, 3] }) (some { accountAddress := "solAcct4" }) (by rfl)).1

/-- Concrete deserialized user operation for the C5 counterexample. -/
def userOp5a : UserOperation :=
  { sender := "0xsender5", nonce := 1, factory := none, factoryData := none,
    callData := "0xdead", callGasLimit := 10, verificationGasLimit := 20,
    preVerificationGas := 30, maxFeePerGas := 40, maxPriorityFeePerGas := 50,
    paymaster := none, paymasterVerificationGasLimit := none,
    paymasterPostOpGasLimit := none, paymasterData := none, signature := "0x" }

/-- The same user operation with only the factory field changed. -/
def userOp5b : UserOperation :=
  { userOp5a with factory := some "0xfactory5" }

/-- C5 counterexample. The claim says the computed hash changes if, and only
if, one of sender, nonce, callData, the gas fields or chainId changes. The
two concrete user operations userOp5a and userOp5b agree on every one of
those fields and differ only in factory, yet their computed hashes differ
(the factory enters the hash through the packed initCode), refuting the only
if direction of the claim at this input. -/
theorem c5_counterexample :
    userOp5a.sender = userOp5b.sender ∧ userOp5a.nonce = userOp5b.nonce ∧
    userOp5a.callData = userOp5b.callData ∧
    userOp5a.callGasLimit = userOp5b.callGasLimit ∧
    userOp5a.verificationGasLimit = userOp5b.verificationGasLimit ∧
    userOp5a.preVerificationGas = userOp5b.preVerificationGas ∧
    userOp5a.maxFeePerGas = userOp5b.maxFeePerGas ∧
    userOp5a.maxPriorityFeePerGas = userOp5b.maxPriorityFeePerGas ∧
    getUserOperationHash userOp5a entryPoint07Address 1 ≠
      getUserOperationHash userOp5b entryPoint07Address 1 := by
  refine ⟨rfl, rfl, rfl, rfl, rfl, rfl, rfl, rfl, ?_⟩
  decide

/-- C5 amended. The computed hash (modeled at the preimage level, keccak256
being treated as injective) is a function of the user operation fields and
the chain id, hence deterministic; two hashes at the same entry point are
equal exactly when sender, nonce, the initCode components (factory, and
factoryData when factory is present), callData, the five gas and fee fields,
the paymasterAndData components (paymaster, and the paymaster gas fields and
data when paymaster is present) and the chain id all agree; and the
signature field never affects the hash. -/
theorem c5_hash_characterization (u1 u2 : UserOperation) (ep : Hex) (c1 c2 : Nat) :
    (getUserOperationHash u1 ep c1 = getUserOperationHash u2 ep c2 ↔
      (u1.sender = u2.sender ∧ u1.nonce = u2.nonce ∧
       initCodeOf u1 = initCodeOf u2 ∧ u1.callData = u2.callData ∧
       u1.verificationGasLimit = u2.verificationGasLimit ∧
       u1.callGasLimit = u2.callGasLimit ∧
       u1.preVerificationGas = u2.preVerificationGas ∧
       u1.maxPriorityFeePerGas = u2.maxPriorityFeePerGas ∧
       u1.maxFeePerGas = u2.maxFeePerGas ∧
       paymasterAndDataOf u1 = paymasterAndDataOf u2 ∧ c1 = c2)) ∧
    (∀ s, getUserOperationHash { u1 with signature := s } ep c1 =
      getUserOperationHash u1 ep c1) := by
  constructor
  · constructor
    · intro h
      simp only [getUserOperationHash, UserOperationHash.mk.injEq, Prod.mk.injEq] at h
      tauto
    · intro h
      simp only [getUserOperationHash, UserOperationHash.mk.injEq, Prod.mk.injEq]
      tauto
  · intro s
    rfl

end OneBalance
